import Mathlib

/-!
Verification of the landing-prediction physics engine of the
Modern-Telemetry ground station (src/utils/geo.ts).

The engine is embedded shallowly:

* All JavaScript numbers are modelled as rationals.  The transcendental
  library functions the code calls (Math.cos, Math.sin, Math.sqrt,
  Math.pow, Math.PI) are abstracted into a MathEnv record of rational
  stand-ins; every control-flow theorem below is proved for an arbitrary
  environment, so it holds whatever values those functions take.
* For the two claims whose truth depends on the actual values of pi,
  cos and non-integer powers (the meters-per-degree constants and the
  range of the ISA density), the relevant functions are embedded a
  second time over the real numbers: displaceCoordinateR directly, and
  getAirDensityN with values in Option, where none models the NaN and
  infinity outcomes of the float computation (a negative base under the
  non-integer Math.pow exponent, and zero divisors).
* The simulation loop of predictLanding is a while loop bounded by a
  hard step cap; it is embedded as structural recursion on the number
  of remaining steps (fuel), which starts at the cap.  The path array
  is kept in reverse (most recent point first) and reversed at the end.
-/

namespace Telemetry

/-- Rational stand-ins for the JavaScript math library functions used by
the engine (Math.cos, Math.sin, Math.sqrt, Math.pow, Math.PI). -/
structure MathEnv where
  cos : ℚ → ℚ
  sin : ℚ → ℚ
  sqrt : ℚ → ℚ
  pow : ℚ → ℚ → ℚ
  pi : ℚ

/-- WindLayer from src/types (altitude m, speed m/s, direction degrees). -/
structure WindLayer where
  altitude : ℚ
  speed : ℚ
  direction : ℚ
deriving DecidableEq

/-- The mode field of WindSettings. -/
inductive WindMode where
  | single
  | gradient
deriving DecidableEq

/-- WindSettings from src/types; fields read with nullish coalescing in
geo.ts are modelled as Option. -/
structure WindSettings where
  mode : WindMode
  speed : Option ℚ
  direction : Option ℚ
  layers : Option (List WindLayer)
  windSpeed : Option ℚ
  windDirection : Option ℚ

/-- DescentSettings from src/types. -/
structure DescentSettings where
  mass : ℚ
  parachuteArea : ℚ
  dragCoefficient : ℚ

/-- HeadingSource from src/types. -/
inductive HeadingSource where
  | gps
  | imu
  | fused
  | auto
deriving DecidableEq

/-- The fields of LandingSettings that predictLanding reads; gpsWeight is
compared against undefined in geo.ts, hence Option. -/
structure LandingSettings where
  headingSource : HeadingSource
  gpsWeight : Option ℚ

/-- One element of the telemetry history passed to predictLanding. -/
structure HistPoint where
  latitude : ℚ
  longitude : ℚ
  timeElapsed : ℚ
deriving Inhabited, DecidableEq

/-- One sample of the returned 3D path. -/
structure PathPoint where
  lat : ℚ
  lon : ℚ
  alt : ℚ
deriving DecidableEq

/-- The LandingPrediction record returned by predictLanding. -/
structure LandingPrediction where
  lat : ℚ
  lon : ℚ
  timeToImpact : ℚ
  confidenceRadius : ℚ
  path : List PathPoint
deriving DecidableEq

-- Constants of geo.ts
def R_EARTH : ℚ := 6371000
def G : ℚ := 9.81
def R_GAS : ℚ := 287.05
def T_STD : ℚ := 288.15
def P_STD : ℚ := 101325
def L_RATE : ℚ := 0.0065

/-- Truncation toward zero, as the JavaScript % operator uses. -/
def jsTrunc (x : ℚ) : ℤ := if x < 0 then ⌈x⌉ else ⌊x⌋

/-- The JavaScript remainder operator on numbers. -/
def jsMod (a b : ℚ) : ℚ := a - b * (jsTrunc (a / b) : ℚ)

/-- getAirDensity of geo.ts: ISA density, optionally scaled by the ratio
of a live reference reading to the ISA prediction at the reference
altitude. -/
def getAirDensity (env : MathEnv) (altitude refDensity refAlt : ℚ) : ℚ :=
  if altitude > 40000 then 0
  else
    let temperature := T_STD - L_RATE * altitude
    let pressure := P_STD * env.pow (1 - (L_RATE * altitude) / T_STD) 5.2561
    let isaDensity := pressure / (R_GAS * temperature)
    if refDensity > 0.1 then
      let refTemp := T_STD - L_RATE * refAlt
      let refPress := P_STD * env.pow (1 - (L_RATE * refAlt) / T_STD) 5.2561
      let refIsaDensity := refPress / (R_GAS * refTemp)
      let factor := refDensity / refIsaDensity
      isaDensity * factor
    else
      isaDensity

/-- The linear blend geo.ts computes between two bounding wind layers. -/
def windBlend (lower upper : WindLayer) (alt : ℚ) : ℚ × ℚ :=
  let ratio := (alt - lower.altitude) / (upper.altitude - lower.altitude)
  (lower.speed + (upper.speed - lower.speed) * ratio,
   lower.direction + (upper.direction - lower.direction) * ratio)

/-- The scanning for-loop of getWindAtAltitude: walk adjacent layer
pairs and return the first window containing alt. -/
def interpLayers (alt : ℚ) : List WindLayer → Option (ℚ × ℚ)
  | lower :: upper :: rest =>
    if alt ≥ lower.altitude ∧ alt ≤ upper.altitude then
      some (windBlend lower upper alt)
    else
      interpLayers alt (upper :: rest)
  | _ => none

/-- getWindAtAltitude of geo.ts. -/
def getWindAtAltitude (alt : ℚ) (settings : WindSettings) : ℚ × ℚ :=
  match settings.mode with
  | .single =>
    (settings.speed.getD (settings.windSpeed.getD 0),
     settings.direction.getD (settings.windDirection.getD 0))
  | .gradient =>
    match settings.layers.getD [] with
    | [] => (0, 0)
    | l0 :: rest =>
      let lastLayer := List.getLastD rest l0
      if alt ≤ l0.altitude then (l0.speed, l0.direction)
      else if alt ≥ lastLayer.altitude then (lastLayer.speed, lastLayer.direction)
      else (interpLayers alt (l0 :: rest)).getD (0, 0)

/-- displaceCoordinate of geo.ts: move a lat/lon point by dx meters east
and dy meters north using the spherical approximation. -/
def displaceCoordinate (env : MathEnv) (lat lon dx dy : ℚ) : ℚ × ℚ :=
  let rLat := lat * env.pi / 180
  let dLat := (dy / R_EARTH) * (180 / env.pi)
  let dLon := (dx / (R_EARTH * env.cos rLat)) * (180 / env.pi)
  (lat + dLat, lon + dLon)

/-- The time gap geo.ts measures between the most recent history sample
and the one 2 indices prior, in seconds. -/
def histGap (history : List HistPoint) : ℚ :=
  let pLast := history.getD (history.length - 1) default
  let pPrev := history.getD (history.length - 3) default
  (pLast.timeElapsed - pPrev.timeElapsed) / 1000

/-- The GPS ground-track vector block of predictLanding (geo.ts lines
184-207): some (vN, vE) exactly when hasGpsVec becomes true. -/
def gpsVector (env : MathEnv) (history : List HistPoint) : Option (ℚ × ℚ) :=
  if 3 ≤ history.length then
    let pLast := history.getD (history.length - 1) default
    let pPrev := history.getD (history.length - 3) default
    let dtHist := (pLast.timeElapsed - pPrev.timeElapsed) / 1000
    if 0.1 < dtHist ∧ dtHist < 3.0 then
      let metersPerDegLat : ℚ := 111320
      let metersPerDegLon : ℚ := 111320 * env.cos (pLast.latitude * env.pi / 180)
      let dLat := pLast.latitude - pPrev.latitude
      let dLon := pLast.longitude - pPrev.longitude
      some ((dLat * metersPerDegLat) / dtHist, (dLon * metersPerDegLon) / dtHist)
    else none
  else none

/-- The velocity fusion block of predictLanding (geo.ts lines 209-249):
combines the GPS ground-track vector and the IMU heading vector per the
configured heading source. -/
def fuseVelocity (env : MathEnv) (history : List HistPoint)
    (headingCurrent hSpeedCurrent : ℚ) (landingSettings : LandingSettings) : ℚ × ℚ :=
  let radHeading := headingCurrent * (env.pi / 180)
  let vN_imu := hSpeedCurrent * env.cos radHeading
  let vE_imu := hSpeedCurrent * env.sin radHeading
  match gpsVector env history with
  | none => (vN_imu, vE_imu)
  | some (vN_gps, vE_gps) =>
    match landingSettings.headingSource with
    | .gps => (vN_gps, vE_gps)
    | .imu => (vN_imu, vE_imu)
    | .fused =>
      let gpsWeight := landingSettings.gpsWeight.getD 0.5
      (vN_gps * gpsWeight + vN_imu * (1 - gpsWeight),
       vE_gps * gpsWeight + vE_imu * (1 - gpsWeight))
    | .auto =>
      let gpsWeight : ℚ := if hSpeedCurrent > 5.0 then 0.3 else 0.8
      (vN_gps * gpsWeight + vN_imu * (1 - gpsWeight),
       vE_gps * gpsWeight + vE_imu * (1 - gpsWeight))

/-- The state of the simulation loop of predictLanding.  The recorded
path is kept most-recent-first and reversed when the result is built. -/
structure SimState where
  lat : ℚ
  lon : ℚ
  alt : ℚ
  vN : ℚ
  vE : ℚ
  vU : ℚ
  t : ℚ
  steps : ℕ
  ascending : Bool
  revPath : List PathPoint

-- Physics settings of the loop
def dt : ℚ := 0.2
def MAX_STEPS : ℕ := 18000

/-- The reference-density argument predictLanding passes to getAirDensity
on each step (geo.ts line 298): the live reading at t = 0, else 0. -/
def densityRefArg (currentDensity : ℚ) (st : SimState) : ℚ :=
  if st.t = 0 then currentDensity else 0

/-- The drag force vector of one step (geo.ts lines 318-326). -/
def dragForce (stepDensity vRelMag cd area relN relE relU : ℚ) : ℚ × ℚ × ℚ :=
  let dragFactor := -0.5 * stepDensity * vRelMag * cd * area
  (dragFactor * relN, dragFactor * relE, dragFactor * relU)

/-- One iteration of the simulation loop of predictLanding (geo.ts lines
272-357).  alt0 is the initial altitude (used as reference altitude for
density calibration) and currentDensity the live sensor density. -/
def stepFn (env : MathEnv) (descentSettings : DescentSettings)
    (windSettings : WindSettings) (groundAlt alt0 currentDensity : ℚ)
    (st : SimState) : SimState :=
  let mac : ℚ × ℚ × ℚ :=
    if st.ascending then
      (descentSettings.mass * 2.0, 0.015, 0.5)
    else
      ((if descentSettings.mass > 0 then descentSettings.mass else 1.0),
       (if descentSettings.parachuteArea > 0 then descentSettings.parachuteArea else 0.5),
       (if descentSettings.dragCoefficient > 0 then descentSettings.dragCoefficient else 1.5))
  let mass := mac.1
  let area := mac.2.1
  let cd := mac.2.2
  let ascending2 : Bool := if st.ascending ∧ st.vU ≤ 0 then false else st.ascending
  let stepDensity := getAirDensity env st.alt (densityRefArg currentDensity st) alt0
  let wind := getWindAtAltitude st.alt windSettings
  let windToRad := jsMod (wind.2 + 180) 360 * (env.pi / 180)
  let wN := wind.1 * env.cos windToRad
  let wE := wind.1 * env.sin windToRad
  let wU : ℚ := 0
  let relN := st.vN - wN
  let relE := st.vE - wE
  let relU := st.vU - wU
  let vRelSq := relN * relN + relE * relE + relU * relU
  let vRelMag := env.sqrt vRelSq
  let fd := dragForce stepDensity vRelMag cd area relN relE relU
  let fGravU := -mass * G
  let aN := fd.1 / mass
  let aE := fd.2.1 / mass
  let aU := (fd.2.2 + fGravU) / mass
  let vN2 := st.vN + aN * dt
  let vE2 := st.vE + aE * dt
  let vU2 := st.vU + aU * dt
  let dLatMeters := vN2 * dt
  let dLonMeters := vE2 * dt
  let newCoords := displaceCoordinate env st.lat st.lon dLonMeters dLatMeters
  let lat2 := newCoords.1
  let lon2 := newCoords.2
  let alt2 := st.alt + vU2 * dt
  let t2 := st.t + dt
  let steps2 := st.steps + 1
  let revPath2 :=
    if steps2 % 5 = 0 ∨ alt2 ≤ groundAlt then
      (⟨lat2, lon2, max groundAlt alt2⟩ : PathPoint) :: st.revPath
    else st.revPath
  ⟨lat2, lon2, alt2, vN2, vE2, vU2, t2, steps2, ascending2, revPath2⟩

/-- The while loop of predictLanding, with the remaining step budget
(MAX_STEPS minus steps executed so far) as explicit fuel. -/
def runSim (env : MathEnv) (descentSettings : DescentSettings)
    (windSettings : WindSettings) (groundAlt alt0 currentDensity : ℚ) :
    ℕ → SimState → SimState
  | 0, st => st
  | fuel + 1, st =>
    if st.alt > groundAlt then
      runSim env descentSettings windSettings groundAlt alt0 currentDensity fuel
        (stepFn env descentSettings windSettings groundAlt alt0 currentDensity st)
    else st

/-- The state predictLanding initializes before its loop (geo.ts lines
251-269). -/
def initState (env : MathEnv) (lat lon alt vSpeedCurrent hSpeedCurrent headingCurrent : ℚ)
    (landingSettings : LandingSettings) (history : List HistPoint) : SimState :=
  let v := fuseVelocity env history headingCurrent hSpeedCurrent landingSettings
  ⟨lat, lon, alt, v.1, v.2, vSpeedCurrent, 0, 0, decide (vSpeedCurrent > 0), []⟩

/-- The state of predictLanding when its loop exits. -/
def finalState (env : MathEnv) (lat lon alt vSpeedCurrent hSpeedCurrent headingCurrent : ℚ)
    (descentSettings : DescentSettings) (windSettings : WindSettings)
    (landingSettings : LandingSettings) (groundAlt currentDensity : ℚ)
    (history : List HistPoint) : SimState :=
  runSim env descentSettings windSettings groundAlt alt currentDensity MAX_STEPS
    (initState env lat lon alt vSpeedCurrent hSpeedCurrent headingCurrent
      landingSettings history)

/-- predictLanding of geo.ts. -/
def predictLanding (env : MathEnv) (lat lon alt vSpeedCurrent hSpeedCurrent headingCurrent : ℚ)
    (descentSettings : DescentSettings) (windSettings : WindSettings)
    (landingSettings : LandingSettings) (groundAlt currentDensity : ℚ)
    (history : List HistPoint) : Option LandingPrediction :=
  if alt < 5 then none
  else if |lat| < 0.0001 ∧ |lon| < 0.0001 then none
  else
    let stF := finalState env lat lon alt vSpeedCurrent hSpeedCurrent headingCurrent
      descentSettings windSettings landingSettings groundAlt currentDensity history
    let revPath2 :=
      match stF.revPath with
      | [] => []
      | p :: rest =>
        if p.alt > groundAlt then (⟨stF.lat, stF.lon, groundAlt⟩ : PathPoint) :: p :: rest
        else p :: rest
    let confidence := 15 + alt * 0.05 + stF.t * 0.5
    some ⟨stF.lat, stF.lon, stF.t, confidence, revPath2.reverse⟩

/-! Real-number embeddings of the two functions whose claims depend on
the actual values of pi, cosine and the non-integer ISA exponent.  For
getAirDensity the float computation can produce NaN or an infinity, so
it is embedded with values in Option: none stands for a non-finite
(NaN or infinite) outcome, some x for the finite ideal value x;
finite-range overflow and rounding are not modelled. -/

/-- displaceCoordinate of geo.ts over the reals (Math.PI and Math.cos
taken as their exact mathematical values). -/
noncomputable def displaceCoordinateR (lat lon dx dy : ℝ) : ℝ × ℝ :=
  let rLat := lat * Real.pi / 180
  let dLat := (dy / 6371000) * (180 / Real.pi)
  let dLon := (dx / (6371000 * Real.cos rLat)) * (180 / Real.pi)
  (lat + dLat, lon + dLon)

/-- The meters-per-degree-of-latitude constant of the GPS ground-track
block of predictLanding (geo.ts line 197). -/
def gpsMetersPerDegLat : ℝ := 111320

/-- Math.pow under IEEE semantics for the non-integer exponent 5.2561
that getAirDensity uses: a negative base yields NaN (none); a
nonnegative base gives the real power (0 ^ 5.2561 = 0, as in IEEE). -/
noncomputable def jsPow (x y : ℝ) : Option ℝ :=
  if x < 0 then none else some (x ^ y)

/-- Float division of finite operands with the zero divisor made
explicit: 0/0 is NaN and x/0 is an infinity, in either case not a
finite number (none); otherwise the finite quotient. -/
noncomputable def jsDivF (a b : ℝ) : Option ℝ :=
  if b = 0 then none else some (a / b)

/-- getAirDensity of geo.ts over the reals with the NaN/infinity paths
of the float computation made explicit through jsPow and jsDivF; none
propagates through the arithmetic exactly as NaN does in JavaScript. -/
noncomputable def getAirDensityN (altitude refDensity refAlt : ℝ) : Option ℝ :=
  if altitude > 40000 then some 0
  else
    let temperature : ℝ := 288.15 - 0.0065 * altitude
    (jsPow (1 - (0.0065 * altitude) / 288.15) 5.2561).bind fun powAlt =>
      (jsDivF (101325 * powAlt) (287.05 * temperature)).bind fun isaDensity =>
        if refDensity > 0.1 then
          let refTemp : ℝ := 288.15 - 0.0065 * refAlt
          (jsPow (1 - (0.0065 * refAlt) / 288.15) 5.2561).bind fun powRef =>
            (jsDivF (101325 * powRef) (287.05 * refTemp)).bind fun refIsaDensity =>
              (jsDivF refDensity refIsaDensity).map fun factor => isaDensity * factor
        else
          some isaDensity

/-! Concrete fixtures used by the witness theorems. -/

/-- A concrete math environment (the control-flow theorems hold for any
environment, so the stand-in values are arbitrary). -/
def env0 : MathEnv := ⟨fun _ => 1, fun _ => 0, fun _ => 0, fun _ _ => 1, 3.14⟩

/-- A concrete descent profile. -/
def ds0 : DescentSettings := ⟨1, 0.5, 1.5⟩

/-- A concrete single-mode wind setting with calm wind. -/
def ws0 : WindSettings := ⟨WindMode.single, some 0, some 0, none, none, none⟩

/-- A concrete gradient wind field with two sorted layers. -/
def wsGrad : WindSettings :=
  ⟨WindMode.gradient, none, none, some [⟨0, 1, 2⟩, ⟨100, 3, 4⟩], none, none⟩

/-- A concrete landing policy (auto heading source). -/
def ls0 : LandingSettings := ⟨HeadingSource.auto, none⟩

/-! Basic facts about single steps and the bounded loop. -/

theorem stepFn_t (env : MathEnv) (ds : DescentSettings) (ws : WindSettings)
    (ga a0 ρ : ℚ) (st : SimState) :
    (stepFn env ds ws ga a0 ρ st).t = st.t + dt := rfl

theorem stepFn_steps (env : MathEnv) (ds : DescentSettings) (ws : WindSettings)
    (ga a0 ρ : ℚ) (st : SimState) :
    (stepFn env ds ws ga a0 ρ st).steps = st.steps + 1 := rfl

theorem runSim_stall (env : MathEnv) (ds : DescentSettings) (ws : WindSettings)
    (ga a0 ρ : ℚ) (fuel : ℕ) (st : SimState) (h : ¬ st.alt > ga) :
    runSim env ds ws ga a0 ρ fuel st = st := by
  cases fuel with
  | zero => rfl
  | succ f => simp [runSim, h]

theorem runSim_steps_le (env : MathEnv) (ds : DescentSettings) (ws : WindSettings)
    (ga a0 ρ : ℚ) : ∀ (fuel : ℕ) (st : SimState),
    (runSim env ds ws ga a0 ρ fuel st).steps ≤ st.steps + fuel := by
  intro fuel
  induction fuel with
  | zero => intro st; simp [runSim]
  | succ f ih =>
    intro st
    simp only [runSim]
    split
    · have h1 := ih (stepFn env ds ws ga a0 ρ st)
      rw [stepFn_steps] at h1
      omega
    · omega

theorem runSim_t_eq_steps (env : MathEnv) (ds : DescentSettings) (ws : WindSettings)
    (ga a0 ρ : ℚ) : ∀ (fuel : ℕ) (st : SimState),
    st.t = (st.steps : ℚ) * dt →
    (runSim env ds ws ga a0 ρ fuel st).t =
      ((runSim env ds ws ga a0 ρ fuel st).steps : ℚ) * dt := by
  intro fuel
  induction fuel with
  | zero => intro st h; simpa [runSim] using h
  | succ f ih =>
    intro st h
    simp only [runSim]
    split
    · refine ih _ ?_
      rw [stepFn_t, stepFn_steps, h]
      push_cast
      ring
    · exact h

/-- C1: predictLanding returns no prediction exactly when the altitude is
below 5 m or the GPS fix is degenerate (both coordinates within 1e-4 of
zero); every other input yields a result, and the function is total, so
no exception can occur. -/
theorem predictLanding_none_iff (env : MathEnv) (lat lon alt vS hS hd : ℚ)
    (ds : DescentSettings) (ws : WindSettings) (ls : LandingSettings)
    (ga ρ : ℚ) (history : List HistPoint) :
    predictLanding env lat lon alt vS hS hd ds ws ls ga ρ history = none ↔
      (alt < 5 ∨ (|lat| < 0.0001 ∧ |lon| < 0.0001)) := by
  unfold predictLanding
  split_ifs with h1 h2
  · simp [h1]
  · simp [h1, h2]
  · simp [h1, h2]

/-- Witness for C1 at a concrete rejected input (altitude 3 m). -/
theorem predictLanding_none_iff_witness :
    predictLanding env0 10 10 3 0 0 0 ds0 ws0 ls0 0 0 [] = none :=
  (predictLanding_none_iff env0 10 10 3 0 0 0 ds0 ws0 ls0 0 0 []).mpr
    (Or.inl (by norm_num))

/-- C9: when the relative velocity with respect to the wind is zero, the
drag force of that step is exactly zero on all three axes; the drag
formula contains no division by the velocity magnitude at all (one
factor of the magnitude is folded into the vector product), so no
division by zero can arise there. -/
theorem dragForce_zero_of_zero_rel (stepDensity vRelMag cd area relN relE relU : ℚ)
    (hN : relN = 0) (hE : relE = 0) (hU : relU = 0) :
    dragForce stepDensity vRelMag cd area relN relE relU = (0, 0, 0) := by
  subst hN hE hU
  simp [dragForce]

/-- Witness for C9 at concrete inputs. -/
theorem dragForce_zero_of_zero_rel_witness :
    dragForce 1.2 3 1.5 0.5 0 0 0 = (0, 0, 0) :=
  dragForce_zero_of_zero_rel 1.2 3 1.5 0.5 0 0 0 rfl rfl rfl

/-- C8 counterexample: with a live reference density (2 kg/m3 > 0.1) and
a reference altitude of 50,000 m, the calibration branch computes
Math.pow of a negative base with the non-integer exponent 5.2561, which
is NaN in JavaScript; the returned value is therefore not a finite
non-negative number. -/
theorem getAirDensity_nan_cex : getAirDensityN 1000 2 50000 = none := by
  have h1 : ¬ ((1000 : ℝ) > 40000) := by norm_num
  have hb1 : ¬ ((1 : ℝ) - (0.0065 * 1000) / 288.15 < 0) := by norm_num
  have hpow1 : jsPow ((1 : ℝ) - (0.0065 * 1000) / 288.15) 5.2561 =
      some (((1 : ℝ) - (0.0065 * 1000) / 288.15) ^ (5.2561 : ℝ)) := by
    simp only [jsPow, if_neg hb1]
  have hden1 : ¬ ((287.05 : ℝ) * (288.15 - 0.0065 * 1000) = 0) := by norm_num
  have hdiv1 : jsDivF ((101325 : ℝ) * (((1 : ℝ) - (0.0065 * 1000) / 288.15) ^ (5.2561 : ℝ)))
      ((287.05 : ℝ) * (288.15 - 0.0065 * 1000)) =
      some ((101325 : ℝ) * (((1 : ℝ) - (0.0065 * 1000) / 288.15) ^ (5.2561 : ℝ)) /
        ((287.05 : ℝ) * (288.15 - 0.0065 * 1000))) := by
    simp only [jsDivF, if_neg hden1]
  have h2 : ((2 : ℝ)) > 0.1 := by norm_num
  have hb2 : ((1 : ℝ) - (0.0065 * 50000) / 288.15) < 0 := by norm_num
  have hpow2 : jsPow ((1 : ℝ) - (0.0065 * 50000) / 288.15) 5.2561 = none := by
    simp only [jsPow, if_pos hb2]
  simp [getAirDensityN, if_neg h1, hpow1, hdiv1, if_pos h2, hpow2]

/-- C8 amended: getAirDensity returns a finite non-negative number for
every altitude and every reference density whenever the calibration
branch is inactive (referenceDensity at most 0.1) or the reference
altitude lies strictly below the ISA troposphere singularity
288.15/0.0065 (about 44,330.77 m); at or beyond that singularity with a
live reference density, the float computation is non-finite (NaN). -/
theorem getAirDensityN_nonneg (altitude refDensity refAlt : ℝ)
    (h : refDensity ≤ 0.1 ∨ refAlt < 288.15 / 0.0065) :
    ∃ ρ, getAirDensityN altitude refDensity refAlt = some ρ ∧ 0 ≤ ρ := by
  by_cases h1 : altitude > 40000
  · refine ⟨0, ?_, le_refl 0⟩
    simp only [getAirDensityN, if_pos h1]
  · have h40 : altitude ≤ 40000 := not_lt.mp h1
    have htemp : (0 : ℝ) < 288.15 - 0.0065 * altitude := by nlinarith
    have hbase : (0 : ℝ) < 1 - (0.0065 * altitude) / 288.15 := by
      have hb : (1 : ℝ) - (0.0065 * altitude) / 288.15 =
          (288.15 - 0.0065 * altitude) / 288.15 := by ring
      rw [hb]
      positivity
    have hpow1 : jsPow (1 - (0.0065 * altitude) / 288.15) 5.2561 =
        some ((1 - (0.0065 * altitude) / 288.15) ^ (5.2561 : ℝ)) := by
      simp only [jsPow, if_neg (not_lt.mpr hbase.le)]
    have hden1 : (287.05 : ℝ) * (288.15 - 0.0065 * altitude) ≠ 0 :=
      ne_of_gt (mul_pos (by norm_num) htemp)
    have hdiv1 : jsDivF (101325 * ((1 - (0.0065 * altitude) / 288.15) ^ (5.2561 : ℝ)))
        ((287.05 : ℝ) * (288.15 - 0.0065 * altitude)) =
        some (101325 * ((1 - (0.0065 * altitude) / 288.15) ^ (5.2561 : ℝ)) /
          ((287.05 : ℝ) * (288.15 - 0.0065 * altitude))) := by
      simp only [jsDivF, if_neg hden1]
    have hisa : 0 < 101325 * ((1 - (0.0065 * altitude) / 288.15) ^ (5.2561 : ℝ)) /
        ((287.05 : ℝ) * (288.15 - 0.0065 * altitude)) :=
      div_pos (mul_pos (by norm_num) (Real.rpow_pos_of_pos hbase _))
        (mul_pos (by norm_num) htemp)
    by_cases h2 : refDensity > 0.1
    · have hrefAlt : refAlt < 288.15 / 0.0065 := by
        rcases h with hA | hA
        · linarith
        · exact hA
      have hrefTemp : (0 : ℝ) < 288.15 - 0.0065 * refAlt := by
        have hm := (lt_div_iff₀ (by norm_num : (0 : ℝ) < 0.0065)).mp hrefAlt
        linarith
      have hbase2 : (0 : ℝ) < 1 - (0.0065 * refAlt) / 288.15 := by
        have hb : (1 : ℝ) - (0.0065 * refAlt) / 288.15 =
            (288.15 - 0.0065 * refAlt) / 288.15 := by ring
        rw [hb]
        positivity
      have hpow2 : jsPow (1 - (0.0065 * refAlt) / 288.15) 5.2561 =
          some ((1 - (0.0065 * refAlt) / 288.15) ^ (5.2561 : ℝ)) := by
        simp only [jsPow, if_neg (not_lt.mpr hbase2.le)]
      have hden2 : (287.05 : ℝ) * (288.15 - 0.0065 * refAlt) ≠ 0 :=
        ne_of_gt (mul_pos (by norm_num) hrefTemp)
      have hdiv2 : jsDivF (101325 * ((1 - (0.0065 * refAlt) / 288.15) ^ (5.2561 : ℝ)))
          ((287.05 : ℝ) * (288.15 - 0.0065 * refAlt)) =
          some (101325 * ((1 - (0.0065 * refAlt) / 288.15) ^ (5.2561 : ℝ)) /
            ((287.05 : ℝ) * (288.15 - 0.0065 * refAlt))) := by
        simp only [jsDivF, if_neg hden2]
      have hrefisa : 0 < 101325 * ((1 - (0.0065 * refAlt) / 288.15) ^ (5.2561 : ℝ)) /
          ((287.05 : ℝ) * (288.15 - 0.0065 * refAlt)) :=
        div_pos (mul_pos (by norm_num) (Real.rpow_pos_of_pos hbase2 _))
          (mul_pos (by norm_num) hrefTemp)
      have hdiv3 : jsDivF refDensity
          (101325 * ((1 - (0.0065 * refAlt) / 288.15) ^ (5.2561 : ℝ)) /
            ((287.05 : ℝ) * (288.15 - 0.0065 * refAlt))) =
          some (refDensity /
            (101325 * ((1 - (0.0065 * refAlt) / 288.15) ^ (5.2561 : ℝ)) /
              ((287.05 : ℝ) * (288.15 - 0.0065 * refAlt)))) := by
        simp only [jsDivF, if_neg (ne_of_gt hrefisa)]
      refine ⟨101325 * ((1 - (0.0065 * altitude) / 288.15) ^ (5.2561 : ℝ)) /
          ((287.05 : ℝ) * (288.15 - 0.0065 * altitude)) *
          (refDensity / (101325 * ((1 - (0.0065 * refAlt) / 288.15) ^ (5.2561 : ℝ)) /
            ((287.05 : ℝ) * (288.15 - 0.0065 * refAlt)))), ?_, ?_⟩
      · simp only [getAirDensityN, if_neg h1, hpow1, Option.some_bind, hdiv1, if_pos h2,
          hpow2, hdiv2, hdiv3, Option.map_some']
      · exact mul_nonneg hisa.le (div_nonneg (by linarith) hrefisa.le)
    · refine ⟨101325 * ((1 - (0.0065 * altitude) / 288.15) ^ (5.2561 : ℝ)) /
          ((287.05 : ℝ) * (288.15 - 0.0065 * altitude)), ?_, hisa.le⟩
      simp only [getAirDensityN, if_neg h1, hpow1, Option.some_bind, hdiv1, if_neg h2]

/-- Witness for C8 amended at a concrete in-domain reference altitude. -/
theorem getAirDensityN_nonneg_witness :
    ∃ ρ, getAirDensityN 1000 2 0 = some ρ ∧ 0 ≤ ρ :=
  getAirDensityN_nonneg 1000 2 0 (Or.inr (by norm_num))

/-- C4 counterexample: displacing by exactly the 111,320 m that the GPS
ground-track block treats as one degree of latitude does not move
displaceCoordinate by one degree, so the two conversions use different
meters-per-degree constants and are not equal as functions. -/
theorem displaceCoordinate_gps_constant_cex :
    (displaceCoordinateR 0 0 0 gpsMetersPerDegLat).1 ≠ 1 := by
  have hπ := Real.pi_pos
  have hlt : 6371000 * Real.pi < 20037600 := by nlinarith [Real.pi_lt_d6]
  simp only [displaceCoordinateR, gpsMetersPerDegLat, zero_add]
  have h1 : (1 : ℝ) < 111320 / 6371000 * (180 / Real.pi) := by
    rw [div_mul_div_comm, lt_div_iff₀ (by positivity)]
    nlinarith
  exact ne_of_gt h1

/-- C4 amended: displaceCoordinate converts dy meters of northing to
degrees by dividing by R_EARTH·pi/180 (≈ 111194.93 m per degree), a
constant strictly smaller than the 111,320 m per degree used by the GPS
ground-track computation; both scale the longitude conversion by the
cosine of the latitude, but the two conversions differ as functions. -/
theorem displaceCoordinateR_constants :
    (∀ lat lon dx dy : ℝ,
      (displaceCoordinateR lat lon dx dy).1 = lat + dy * 180 / (6371000 * Real.pi)) ∧
    6371000 * Real.pi / 180 < gpsMetersPerDegLat ∧
    (∀ lat lon dx dy : ℝ,
      (displaceCoordinateR lat lon dx dy).2 =
        lon + dx * 180 / (6371000 * Real.cos (lat * Real.pi / 180) * Real.pi)) := by
  refine ⟨?_, ?_, ?_⟩
  · intro lat lon dx dy
    simp only [displaceCoordinateR]
    rw [div_mul_div_comm]
  · simp only [gpsMetersPerDegLat]
    rw [div_lt_iff₀ (by norm_num : (0 : ℝ) < 180)]
    nlinarith [Real.pi_lt_d6, Real.pi_pos]
  · intro lat lon dx dy
    simp only [displaceCoordinateR]
    rw [div_mul_div_comm]

/-- Witness for C4 amended: the latitude constant of displaceCoordinate
is strictly below the GPS ground-track constant. -/
theorem displaceCoordinateR_constants_witness :
    6371000 * Real.pi / 180 < gpsMetersPerDegLat :=
  displaceCoordinateR_constants.2.1

theorem iterate_stepFn_t (env : MathEnv) (ds : DescentSettings) (ws : WindSettings)
    (ga a0 ρ : ℚ) : ∀ (n : ℕ) (st : SimState),
    ((stepFn env ds ws ga a0 ρ)^[n] st).t = st.t + (n : ℚ) * dt := by
  intro n
  induction n with
  | zero => intro st; simp
  | succ n ih =>
    intro st
    rw [Function.iterate_succ_apply, ih, stepFn_t]
    push_cast
    ring

/-- C7: the live reference density is passed to the atmosphere model only
on the very first step (where the simulated time is still 0); after k ≥ 1
steps the reference-density argument is 0, and getAirDensity with a zero
reference ignores the reference altitude entirely, i.e. is the pure
un-calibrated ISA density. -/
theorem densityRefArg_first_step_only (env : MathEnv) (ds : DescentSettings)
    (ws : WindSettings) (lat lon alt vS hS hd : ℚ) (ls : LandingSettings)
    (ga ρ : ℚ) (history : List HistPoint) :
    densityRefArg ρ (initState env lat lon alt vS hS hd ls history) = ρ ∧
    (∀ k : ℕ, 1 ≤ k →
      densityRefArg ρ ((stepFn env ds ws ga alt ρ)^[k]
        (initState env lat lon alt vS hS hd ls history)) = 0) ∧
    (∀ a r : ℚ, getAirDensity env a 0 r = getAirDensity env a 0 0) := by
  refine ⟨by simp [densityRefArg, initState], ?_, ?_⟩
  · intro k hk
    have hne : ((stepFn env ds ws ga alt ρ)^[k]
        (initState env lat lon alt vS hS hd ls history)).t ≠ 0 := by
      rw [iterate_stepFn_t, show (initState env lat lon alt vS hS hd ls history).t = 0 from rfl,
        zero_add]
      have hk1 : (1 : ℚ) ≤ (k : ℚ) := by exact_mod_cast hk
      have hdt : (0 : ℚ) < dt := by norm_num [dt]
      exact ne_of_gt (mul_pos (lt_of_lt_of_le one_pos hk1) hdt)
    simp [densityRefArg, hne]
  · intro a r
    simp [getAirDensity, show ¬ ((0 : ℚ) > 0.1) by norm_num]

/-- Witness for C7: after one step the reference-density argument is 0. -/
theorem densityRefArg_first_step_only_witness :
    densityRefArg 2 ((stepFn env0 ds0 ws0 0 100 2)^[1]
      (initState env0 10 10 100 (-5) 0 0 ls0 [])) = 0 :=
  (densityRefArg_first_step_only env0 ds0 ws0 10 10 100 (-5) 0 0 ls0 0 2 []).2.1 1
    (by norm_num)

/-- C10: when the sanity checks pass but the initial altitude is at or
below ground altitude, predictLanding still returns a result whose path
is empty, whose time to impact is 0, whose landing point is the input
point unchanged, and whose confidence radius is 15 + 0.05·altitude. -/
theorem predictLanding_below_ground (env : MathEnv) (lat lon alt vS hS hd : ℚ)
    (ds : DescentSettings) (ws : WindSettings) (ls : LandingSettings)
    (ga ρ : ℚ) (history : List HistPoint)
    (h1 : ¬ alt < 5) (h2 : ¬ (|lat| < 0.0001 ∧ |lon| < 0.0001)) (h3 : alt ≤ ga) :
    predictLanding env lat lon alt vS hS hd ds ws ls ga ρ history =
      some ⟨lat, lon, 0, 15 + alt * 0.05, []⟩ := by
  have hst : finalState env lat lon alt vS hS hd ds ws ls ga ρ history =
      initState env lat lon alt vS hS hd ls history := by
    unfold finalState
    exact runSim_stall env ds ws ga alt ρ MAX_STEPS _ (by simp [initState]; exact h3)
  simp only [predictLanding, if_neg h1, if_neg h2, hst]
  simp [initState]

/-- Witness for C10 at a concrete input (altitude 50 m, ground 100 m). -/
theorem predictLanding_below_ground_witness :
    predictLanding env0 10 10 50 (-5) 0 0 ds0 ws0 ls0 100 0 [] =
      some ⟨10, 10, 0, 15 + 50 * 0.05, []⟩ :=
  predictLanding_below_ground env0 10 10 50 (-5) 0 0 ds0 ws0 ls0 100 0 []
    (by norm_num) (by norm_num) (by norm_num)

/-- C2: for every run that passes the sanity checks the loop executes at
most 18,000 steps (it terminates by construction, the fuel being the
step cap), and the returned timeToImpact equals the number of executed
steps times 0.2, hence lies between 0 and 3600 seconds. -/
theorem predictLanding_step_cap (env : MathEnv) (lat lon alt vS hS hd : ℚ)
    (ds : DescentSettings) (ws : WindSettings) (ls : LandingSettings)
    (ga ρ : ℚ) (history : List HistPoint)
    (h1 : ¬ alt < 5) (h2 : ¬ (|lat| < 0.0001 ∧ |lon| < 0.0001)) :
    (finalState env lat lon alt vS hS hd ds ws ls ga ρ history).steps ≤ 18000 ∧
    (predictLanding env lat lon alt vS hS hd ds ws ls ga ρ history).map
        LandingPrediction.timeToImpact =
      some (((finalState env lat lon alt vS hS hd ds ws ls ga ρ history).steps : ℚ) * 0.2) ∧
    0 ≤ ((finalState env lat lon alt vS hS hd ds ws ls ga ρ history).steps : ℚ) * 0.2 ∧
    ((finalState env lat lon alt vS hS hd ds ws ls ga ρ history).steps : ℚ) * 0.2 ≤ 3600 := by
  have hsteps : (finalState env lat lon alt vS hS hd ds ws ls ga ρ history).steps ≤ 18000 := by
    have h := runSim_steps_le env ds ws ga alt ρ MAX_STEPS
      (initState env lat lon alt vS hS hd ls history)
    simpa [finalState, initState, MAX_STEPS] using h
  have ht : (finalState env lat lon alt vS hS hd ds ws ls ga ρ history).t =
      ((finalState env lat lon alt vS hS hd ds ws ls ga ρ history).steps : ℚ) * dt := by
    unfold finalState
    exact runSim_t_eq_steps env ds ws ga alt ρ MAX_STEPS _ (by simp [initState])
  refine ⟨hsteps, ?_, by positivity, ?_⟩
  · simp only [predictLanding, if_neg h1, if_neg h2, Option.map_some]
    simpa [dt] using ht
  · have hc : ((finalState env lat lon alt vS hS hd ds ws ls ga ρ history).steps : ℚ) ≤ 18000 := by
      exact_mod_cast hsteps
    nlinarith

/-- Witness for C2 at a concrete input passing the sanity checks. -/
theorem predictLanding_step_cap_witness :
    (finalState env0 10 10 50 0 0 0 ds0 ws0 ls0 100 0 []).steps ≤ 18000 :=
  (predictLanding_step_cap env0 10 10 50 0 0 0 ds0 ws0 ls0 100 0 []
    (by norm_num) (by norm_num)).1

theorem stepFn_revPath (env : MathEnv) (ds : DescentSettings) (ws : WindSettings)
    (ga a0 ρ : ℚ) (st : SimState) :
    (stepFn env ds ws ga a0 ρ st).revPath =
      if (st.steps + 1) % 5 = 0 ∨ (stepFn env ds ws ga a0 ρ st).alt ≤ ga then
        (⟨(stepFn env ds ws ga a0 ρ st).lat, (stepFn env ds ws ga a0 ρ st).lon,
          max ga (stepFn env ds ws ga a0 ρ st).alt⟩ : PathPoint) :: st.revPath
      else st.revPath := rfl

/-- If at least one loop iteration runs, the loop exits with a non-empty
recorded path whose most recent point has altitude max(ground, final
altitude): the final iteration pushes either because it crossed the
ground or because the step counter reached the cap, a multiple of 5. -/
theorem runSim_path_lands (env : MathEnv) (ds : DescentSettings) (ws : WindSettings)
    (ga a0 ρ : ℚ) : ∀ (fuel : ℕ) (st : SimState),
    st.steps + fuel = MAX_STEPS → ga < st.alt → 1 ≤ fuel →
    ∃ pt rest, (runSim env ds ws ga a0 ρ fuel st).revPath = pt :: rest ∧
      pt.alt = max ga (runSim env ds ws ga a0 ρ fuel st).alt := by
  intro fuel
  induction fuel with
  | zero => intro st _ _ h; omega
  | succ f ih =>
    intro st hsum halt _
    have hgt : st.alt > ga := halt
    simp only [runSim, if_pos hgt]
    by_cases h2 : (stepFn env ds ws ga a0 ρ st).alt ≤ ga
    · rw [runSim_stall env ds ws ga a0 ρ f _ (not_lt.mpr h2)]
      have hpush := stepFn_revPath env ds ws ga a0 ρ st
      rw [if_pos (Or.inr h2)] at hpush
      exact ⟨_, st.revPath, hpush, rfl⟩
    · push_neg at h2
      cases f with
      | zero =>
        simp only [runSim]
        have hms : MAX_STEPS = 18000 := rfl
        have hsteps : st.steps = 17999 := by omega
        have hpush := stepFn_revPath env ds ws ga a0 ρ st
        rw [if_pos (Or.inl (by rw [hsteps]))] at hpush
        exact ⟨_, st.revPath, hpush, rfl⟩
      | succ f2 =>
        exact ih (stepFn env ds ws ga a0 ρ st) (by rw [stepFn_steps]; omega) h2 (by omega)

/-- C3 counterexample: a run that passes both sanity checks (altitude
40 m ≥ 5, valid fix) but starts at or below the ground altitude returns
a prediction whose path is empty, contradicting the claim that every
such run yields a non-empty path ending at ground altitude. -/
theorem predictLanding_path_empty_cex :
    predictLanding env0 20 20 40 (-5) 0 0 ds0 ws0 ls0 200 0 [] =
      some ⟨20, 20, 0, 15 + 40 * 0.05, []⟩ := by
  have hst : finalState env0 20 20 40 (-5) 0 0 ds0 ws0 ls0 200 0 [] =
      initState env0 20 20 40 (-5) 0 0 ls0 [] := by
    unfold finalState
    exact runSim_stall env0 ds0 ws0 200 40 0 MAX_STEPS _ (by simp [initState]; norm_num)
  have hc1 : ¬ ((40 : ℚ) < 5) := by norm_num
  have hc2 : ¬ (|(20 : ℚ)| < 0.0001 ∧ |(20 : ℚ)| < 0.0001) := by norm_num
  simp only [predictLanding, if_neg hc1, if_neg hc2, hst]
  simp [initState]

/-- C3 amended: for every run that passes the sanity checks and starts
strictly above the ground altitude, the returned path is non-empty and
its last point has altitude exactly equal to the ground altitude,
including when the loop stops at the step cap still above ground (the
final exact ground point is then appended); when the initial altitude is
at or below ground the loop body never runs and the path is empty. -/
theorem predictLanding_path_ends_at_ground (env : MathEnv) (lat lon alt vS hS hd : ℚ)
    (ds : DescentSettings) (ws : WindSettings) (ls : LandingSettings)
    (ga ρ : ℚ) (history : List HistPoint)
    (h1 : ¬ alt < 5) (h2 : ¬ (|lat| < 0.0001 ∧ |lon| < 0.0001)) (h3 : ga < alt) :
    ∃ r, predictLanding env lat lon alt vS hS hd ds ws ls ga ρ history = some r ∧
      r.path ≠ [] ∧ ∃ p, r.path.getLast? = some p ∧ p.alt = ga := by
  obtain ⟨pt, rest, hrev, halt⟩ := runSim_path_lands env ds ws ga alt ρ MAX_STEPS
    (initState env lat lon alt vS hS hd ls history) (by simp [initState])
    (by simpa [initState] using h3) (by norm_num [MAX_STEPS])
  have hrev2 : (finalState env lat lon alt vS hS hd ds ws ls ga ρ history).revPath =
      pt :: rest := hrev
  have halt2 : pt.alt = max ga (finalState env lat lon alt vS hS hd ds ws ls ga ρ history).alt :=
    halt
  simp only [predictLanding, if_neg h1, if_neg h2, hrev2]
  by_cases hp : pt.alt > ga
  · rw [if_pos hp]
    refine ⟨_, rfl, by simp, ?_⟩
    refine ⟨⟨(finalState env lat lon alt vS hS hd ds ws ls ga ρ history).lat,
      (finalState env lat lon alt vS hS hd ds ws ls ga ρ history).lon, ga⟩, ?_, rfl⟩
    rw [List.getLast?_reverse]
    rfl
  · rw [if_neg hp]
    push_neg at hp
    refine ⟨_, rfl, by simp, ⟨pt, ?_, ?_⟩⟩
    · rw [List.getLast?_reverse]
      rfl
    · exact le_antisymm hp (halt2 ▸ le_max_left _ _)

/-- Witness for C3 amended at a concrete input starting above ground. -/
theorem predictLanding_path_ends_at_ground_witness :
    ∃ r, predictLanding env0 10 10 50 (-5) 0 0 ds0 ws0 ls0 0 0 [] = some r ∧
      r.path ≠ [] ∧ ∃ p, r.path.getLast? = some p ∧ p.alt = 0 :=
  predictLanding_path_ends_at_ground env0 10 10 50 (-5) 0 0 ds0 ws0 ls0 0 0 []
    (by norm_num) (by norm_num) (by norm_num)

theorem pairwise_alt_le (L : List WindLayer)
    (hs : List.Pairwise (fun a b => a.altitude < b.altitude) L)
    (i j : ℕ) (hi : i < L.length) (hj : j < L.length) (hij : i ≤ j) :
    (L.get ⟨i, hi⟩).altitude ≤ (L.get ⟨j, hj⟩).altitude := by
  rcases eq_or_lt_of_le hij with h | h
  · subst h
    exact le_of_eq rfl
  · exact le_of_lt (List.pairwise_iff_get.mp hs ⟨i, hi⟩ ⟨j, hj⟩ h)

/-- The scanning loop of getWindAtAltitude settles on the window whose
lower bound is strictly below alt and whose upper bound is at or above
alt, when the layers are strictly ascending. -/
theorem interpLayers_window (alt : ℚ) : ∀ (L : List WindLayer),
    List.Pairwise (fun a b => a.altitude < b.altitude) L →
    ∀ (i : ℕ) (hi1 : i + 1 < L.length),
    (L.get ⟨i, by omega⟩).altitude < alt → alt ≤ (L.get ⟨i + 1, hi1⟩).altitude →
    interpLayers alt L = some (windBlend (L.get ⟨i, by omega⟩) (L.get ⟨i + 1, hi1⟩) alt) := by
  intro L
  induction L with
  | nil =>
    intro _ i hi1
    simp at hi1
  | cons l restL ihL =>
    intro hs i hi1 hlo hhi
    cases restL with
    | nil =>
      simp only [List.length_cons, List.length_nil] at hi1
      omega
    | cons u rest2 =>
      cases i with
      | zero =>
        simp only [interpLayers]
        rw [if_pos ⟨le_of_lt hlo, hhi⟩]
        rfl
      | succ k =>
        have htail : List.Pairwise (fun a b => a.altitude < b.altitude) (u :: rest2) :=
          (List.pairwise_cons.mp hs).2
        have hlen : k + 1 < (u :: rest2).length := by
          simp only [List.length_cons] at hi1 ⊢
          omega
        have hlo2 : ((u :: rest2).get ⟨k, by omega⟩).altitude < alt := hlo
        have hhi2 : alt ≤ ((u :: rest2).get ⟨k + 1, hlen⟩).altitude := hhi
        have hfail : ¬ (alt ≥ l.altitude ∧ alt ≤ u.altitude) := by
          intro hcon
          have hmono := pairwise_alt_le (u :: rest2) htail 0 k (by omega) (by omega) (by omega)
          exact absurd hcon.2 (not_le.mpr (lt_of_le_of_lt hmono hlo2))
        simp only [interpLayers, if_neg hfail]
        exact ihL htail k hlen hlo2 hhi2

theorem windBlend_at_upper (lower upper : WindLayer) (h : lower.altitude < upper.altitude) :
    windBlend lower upper upper.altitude = (upper.speed, upper.direction) := by
  have hne2 : upper.altitude - lower.altitude ≠ 0 := sub_ne_zero.mpr (ne_of_gt h)
  simp only [windBlend, div_self hne2]
  refine Prod.ext ?_ ?_ <;> dsimp <;> ring

theorem windBlend_mid (lower upper : WindLayer) (h : lower.altitude < upper.altitude) :
    windBlend lower upper ((lower.altitude + upper.altitude) / 2) =
      ((lower.speed + upper.speed) / 2, (lower.direction + upper.direction) / 2) := by
  have hne2 : upper.altitude - lower.altitude ≠ 0 := sub_ne_zero.mpr (ne_of_gt h)
  simp only [windBlend]
  have hr : ((lower.altitude + upper.altitude) / 2 - lower.altitude) /
      (upper.altitude - lower.altitude) = 1 / 2 := by
    rw [div_eq_iff hne2]
    ring
  rw [hr]
  refine Prod.ext ?_ ?_ <;> dsimp <;> ring

theorem getWindAtAltitude_gradient_eq (alt : ℚ) (s : WindSettings) (l0 : WindLayer)
    (rest : List WindLayer) (hm : s.mode = WindMode.gradient)
    (hL : s.layers = some (l0 :: rest)) :
    getWindAtAltitude alt s =
      if alt ≤ l0.altitude then (l0.speed, l0.direction)
      else if alt ≥ (List.getLastD rest l0).altitude then
        ((List.getLastD rest l0).speed, (List.getLastD rest l0).direction)
      else (interpLayers alt (l0 :: rest)).getD (0, 0) := by
  simp only [getWindAtAltitude, hm, hL, Option.getD_some]

/-- C5: in gradient mode with strictly ascending layers, getWindAtAltitude
clamps to the lowest layer at or below it, clamps to the highest layer at
or above it, returns the plain linear blend of speed and raw direction
degrees strictly between two adjacent layers, returns a layer's own
values at its exact altitude, and returns the arithmetic mean of two
adjacent layers at their midpoint altitude. -/
theorem getWindAtAltitude_gradient_spec (s : WindSettings) (L : List WindLayer)
    (hm : s.mode = WindMode.gradient) (hL : s.layers = some L)
    (hs : List.Pairwise (fun a b => a.altitude < b.altitude) L) (hne : L ≠ []) :
    (∀ alt : ℚ, alt ≤ (L.head hne).altitude →
      getWindAtAltitude alt s = ((L.head hne).speed, (L.head hne).direction)) ∧
    (∀ alt : ℚ, (L.getLast hne).altitude ≤ alt →
      getWindAtAltitude alt s = ((L.getLast hne).speed, (L.getLast hne).direction)) ∧
    (∀ (alt : ℚ) (i : ℕ) (hi1 : i + 1 < L.length),
      (L.get ⟨i, by omega⟩).altitude < alt → alt < (L.get ⟨i + 1, hi1⟩).altitude →
      getWindAtAltitude alt s = windBlend (L.get ⟨i, by omega⟩) (L.get ⟨i + 1, hi1⟩) alt) ∧
    (∀ (j : ℕ) (hj : j < L.length),
      getWindAtAltitude (L.get ⟨j, hj⟩).altitude s =
        ((L.get ⟨j, hj⟩).speed, (L.get ⟨j, hj⟩).direction)) ∧
    (∀ (i : ℕ) (hi1 : i + 1 < L.length),
      getWindAtAltitude (((L.get ⟨i, by omega⟩).altitude +
          (L.get ⟨i + 1, hi1⟩).altitude) / 2) s =
        (((L.get ⟨i, by omega⟩).speed + (L.get ⟨i + 1, hi1⟩).speed) / 2,
         ((L.get ⟨i, by omega⟩).direction + (L.get ⟨i + 1, hi1⟩).direction) / 2)) := by
  obtain ⟨l0, rest, rfl⟩ : ∃ l0 rest, L = l0 :: rest := by
    cases L with
    | nil => exact absurd rfl hne
    | cons a t => exact ⟨a, t, rfl⟩
  have heq := fun alt => getWindAtAltitude_gradient_eq alt s l0 rest hm hL
  have hlast : List.getLastD rest l0 = (l0 :: rest).getLast hne :=
    (List.getLast_eq_getLastD l0 rest hne).symm
  have hlastget : (l0 :: rest).getLast hne =
      (l0 :: rest).get ⟨(l0 :: rest).length - 1, by simp⟩ := List.getLast_eq_get _ hne
  have hA : ∀ alt : ℚ, alt ≤ ((l0 :: rest).head hne).altitude →
      getWindAtAltitude alt s =
        (((l0 :: rest).head hne).speed, ((l0 :: rest).head hne).direction) := by
    intro alt halt
    rw [heq alt, if_pos (show alt ≤ l0.altitude from halt)]
    rfl
  have hB : ∀ alt : ℚ, ((l0 :: rest).getLast hne).altitude ≤ alt →
      getWindAtAltitude alt s =
        (((l0 :: rest).getLast hne).speed, ((l0 :: rest).getLast hne).direction) := by
    intro alt halt
    rw [heq alt, hlast]
    by_cases h1 : alt ≤ l0.altitude
    · rw [if_pos h1]
      cases rest with
      | nil => rfl
      | cons u rest2 =>
        exfalso
        have hstrict : l0.altitude < ((l0 :: u :: rest2).getLast hne).altitude := by
          rw [hlastget]
          have h01 : (0 : ℕ) < (l0 :: u :: rest2).length - 1 := by
            simp only [List.length_cons]
            omega
          exact List.pairwise_iff_get.mp hs ⟨0, by simp⟩
            ⟨(l0 :: u :: rest2).length - 1, by simp⟩ h01
        linarith
    · rw [if_neg h1, if_pos (show alt ≥ ((l0 :: rest).getLast hne).altitude from halt)]
  have hC : ∀ (alt : ℚ) (i : ℕ) (hi1 : i + 1 < (l0 :: rest).length),
      ((l0 :: rest).get ⟨i, by omega⟩).altitude < alt →
      alt < ((l0 :: rest).get ⟨i + 1, hi1⟩).altitude →
      getWindAtAltitude alt s =
        windBlend ((l0 :: rest).get ⟨i, by omega⟩) ((l0 :: rest).get ⟨i + 1, hi1⟩) alt := by
    intro alt i hi1 hlo hhi
    rw [heq alt]
    have hfirst : ¬ alt ≤ l0.altitude := by
      have h0 := pairwise_alt_le (l0 :: rest) hs 0 i (by omega) (by omega) (by omega)
      push_neg
      exact lt_of_le_of_lt h0 hlo
    have hsecond : ¬ alt ≥ (List.getLastD rest l0).altitude := by
      rw [hlast, hlastget]
      push_neg
      have h1 := pairwise_alt_le (l0 :: rest) hs (i + 1) ((l0 :: rest).length - 1) hi1
        (by omega) (by omega)
      exact lt_of_lt_of_le hhi h1
    rw [if_neg hfirst, if_neg hsecond,
      interpLayers_window alt (l0 :: rest) hs i hi1 hlo (le_of_lt hhi), Option.getD_some]
  have hD : ∀ (j : ℕ) (hj : j < (l0 :: rest).length),
      getWindAtAltitude ((l0 :: rest).get ⟨j, hj⟩).altitude s =
        (((l0 :: rest).get ⟨j, hj⟩).speed, ((l0 :: rest).get ⟨j, hj⟩).direction) := by
    intro j hj
    rcases Nat.eq_zero_or_pos j with hj0 | hjpos
    · subst hj0
      exact hA _ (le_refl _)
    · by_cases hjlast : j = (l0 :: rest).length - 1
      · subst hjlast
        rw [show (l0 :: rest).get ⟨(l0 :: rest).length - 1, hj⟩ = (l0 :: rest).getLast hne
          from (by rw [hlastget])]
        exact hB _ (le_refl _)
      · obtain ⟨k, rfl⟩ : ∃ k, j = k + 1 := ⟨j - 1, by omega⟩
        have hklt : ((l0 :: rest).get ⟨k, by omega⟩).altitude <
            ((l0 :: rest).get ⟨k + 1, hj⟩).altitude :=
          List.pairwise_iff_get.mp hs ⟨k, by omega⟩ ⟨k + 1, hj⟩ (Fin.mk_lt_mk.mpr (by omega))
        rw [heq _]
        have hfirst : ¬ ((l0 :: rest).get ⟨k + 1, hj⟩).altitude ≤ l0.altitude := by
          push_neg
          exact List.pairwise_iff_get.mp hs ⟨0, by omega⟩ ⟨k + 1, hj⟩ (Fin.mk_lt_mk.mpr (by omega))
        have hsecond : ¬ ((l0 :: rest).get ⟨k + 1, hj⟩).altitude ≥
            (List.getLastD rest l0).altitude := by
          rw [hlast, hlastget]
          push_neg
          have hjlen : k + 1 < (l0 :: rest).length - 1 := by
            simp only [List.length_cons] at hj hjlast ⊢
            omega
          exact List.pairwise_iff_get.mp hs ⟨k + 1, hj⟩
            ⟨(l0 :: rest).length - 1, by omega⟩ hjlen
        rw [if_neg hfirst, if_neg hsecond,
          interpLayers_window ((l0 :: rest).get ⟨k + 1, hj⟩).altitude (l0 :: rest) hs k hj
            hklt (le_refl _), Option.getD_some]
        exact windBlend_at_upper _ _ hklt
  have hE : ∀ (i : ℕ) (hi1 : i + 1 < (l0 :: rest).length),
      getWindAtAltitude ((((l0 :: rest).get ⟨i, by omega⟩).altitude +
          ((l0 :: rest).get ⟨i + 1, hi1⟩).altitude) / 2) s =
        ((((l0 :: rest).get ⟨i, by omega⟩).speed +
            ((l0 :: rest).get ⟨i + 1, hi1⟩).speed) / 2,
         (((l0 :: rest).get ⟨i, by omega⟩).direction +
            ((l0 :: rest).get ⟨i + 1, hi1⟩).direction) / 2) := by
    intro i hi1
    have hlt : ((l0 :: rest).get ⟨i, by omega⟩).altitude <
        ((l0 :: rest).get ⟨i + 1, hi1⟩).altitude :=
      List.pairwise_iff_get.mp hs ⟨i, by omega⟩ ⟨i + 1, hi1⟩ (Fin.mk_lt_mk.mpr (by omega))
    rw [hC _ i hi1 (by linarith) (by linarith)]
    exact windBlend_mid _ _ hlt
  exact ⟨hA, hB, hC, hD, hE⟩

/-- Witness for C5: the midpoint of the two concrete layers gets the
arithmetic mean of their speeds and directions. -/
theorem getWindAtAltitude_gradient_spec_witness :
    getWindAtAltitude 50 wsGrad = (2, 3) := by
  have h := (getWindAtAltitude_gradient_spec wsGrad [⟨0, 1, 2⟩, ⟨100, 3, 4⟩] rfl rfl
    (by norm_num [List.pairwise_cons]) (by simp)).2.2.2.2 0 (by norm_num)
  norm_num at h
  exact h

/-- C6: the GPS ground-track estimate exists exactly when the history has
at least 3 samples and the time gap between the last sample and the one 2
indices prior lies strictly between 0.1 s and 3.0 s; without a GPS
estimate the fused velocity is the IMU estimate regardless of the
configured policy; and in auto mode the GPS blend weight is exactly 0.3
when the horizontal speed exceeds 5 m/s and exactly 0.8 otherwise. -/
theorem fuseVelocity_policy_spec (env : MathEnv) :
    (∀ history : List HistPoint,
      (gpsVector env history).isSome ↔
        (3 ≤ history.length ∧ 0.1 < histGap history ∧ histGap history < 3.0)) ∧
    (∀ (history : List HistPoint) (heading hSpeed : ℚ) (ls : LandingSettings),
      gpsVector env history = none →
      fuseVelocity env history heading hSpeed ls =
        (hSpeed * env.cos (heading * (env.pi / 180)),
         hSpeed * env.sin (heading * (env.pi / 180)))) ∧
    (∀ (history : List HistPoint) (heading hSpeed : ℚ) (ls : LandingSettings) (gN gE : ℚ),
      gpsVector env history = some (gN, gE) → ls.headingSource = HeadingSource.auto →
      fuseVelocity env history heading hSpeed ls =
        (gN * (if hSpeed > 5.0 then 0.3 else 0.8) +
           hSpeed * env.cos (heading * (env.pi / 180)) *
             (1 - (if hSpeed > 5.0 then 0.3 else 0.8)),
         gE * (if hSpeed > 5.0 then 0.3 else 0.8) +
           hSpeed * env.sin (heading * (env.pi / 180)) *
             (1 - (if hSpeed > 5.0 then 0.3 else 0.8)))) := by
  refine ⟨?_, ?_, ?_⟩
  · intro history
    simp only [gpsVector, histGap]
    split_ifs with h1 h2
    · simp_all [List.getD]
    · simp_all [List.getD]
    · simp_all [List.getD]
  · intro history heading hSpeed ls hnone
    simp only [fuseVelocity, hnone]
  · intro history heading hSpeed ls gN gE hsome hsrc
    simp only [fuseVelocity, hsome, hsrc]

/-- Witness for C6: with an empty history the GPS estimate is missing and
the fusion returns the IMU estimate. -/
theorem fuseVelocity_policy_spec_witness :
    fuseVelocity env0 [] 0 7 ls0 = (7, 0) := by
  have h := (fuseVelocity_policy_spec env0).2.1 [] 0 7 ls0 rfl
  simpa [env0] using h

end Telemetry
